import Mathlib

/-!
Shallow embedding of the grafana provisioner-reloader plugin.

Sources embedded here:
- `pkg/plugin/observer/observer.go`: `New`, `Observer.Run`, `Observer.reload`,
  `checkResponse` — the per-scope Observer (change watcher, pending queue of
  capacity 50, periodic dispatch loop, reload HTTP call and response check).
- `pkg/plugin/app.go` (current revision): `NewApp` (Grafana base-URL default
  and trimming, per-scope Observer construction and endpoints), `App.Dispose`
  (cancel only).
- `pkg/plugin/app.go` (superseded single-watcher revision) and its `App.run` /
  `checkResponse`: the inverted `GrafanaURL` condition, the request built with
  a 10-second context timeout, and the `disposeCh` shutdown handshake.

The pending queue is a Go buffered channel of unit signals; it is modelled as
a `List Unit` together with Go channel-operation semantics (a send on a
buffered channel appends when the buffer has room and otherwise blocks; a
receive from a closed channel yields `ok = false`). HTTP requests and
responses are records carrying exactly the fields the code inspects.
-/

namespace ProvisionerReloader

/-! ## Pending queue (observer.go: `reloadCh := make` with buffer 50) -/

/-- Buffer capacity of the pending-reload channel, observer.go line 50. -/
def queueCapacity : Nat := 50

/-- Outcome of a Go send on a buffered channel: either the element is placed in
the buffer, or the buffer is full and the sending goroutine blocks. -/
inductive SendResult where
  | sent (q : List Unit)
  | blocked
deriving DecidableEq

/-- The send `o.reloadCh <- ...` in `Observer.Run` (observer.go line 79): a
plain send on a buffered channel of capacity `queueCapacity`, with no
select/default around it. Go semantics: if the buffer holds fewer than
`queueCapacity` elements the signal is appended, otherwise the sender blocks
until the receiver frees a slot. -/
def chanSend (q : List Unit) : SendResult :=
  if q.length < queueCapacity then .sent (q ++ [()]) else .blocked

/-- The drain loop in `Observer.reload` (observer.go lines 104-106):
`for len > 0` receive one element; repeats until the buffer is empty. -/
def drainChan : List Unit → List Unit
  | [] => []
  | _ :: rest => drainChan rest

/-- One dispatch pass of `Observer.reload` (observer.go lines 92-121) over the
queue contents at the tick, cancellation not fired: if the queue is empty the
`default` branch does nothing; otherwise the select receives one signal, the
drain loop discards the rest, and one reload call is issued. Returns the
number of reload calls issued and the queue contents afterwards. -/
def dispatchPass (q : List Unit) : Nat × List Unit :=
  match q with
  | [] => (0, [])
  | _ :: rest => (1, drainChan rest)

/-! ## Reload request construction -/

/-- The fields of an outgoing HTTP request that the code fixes: the method,
the URL, and the deadline of the context the request is built with. -/
structure ReloadRequest where
  method : String
  url : String
  timeoutSeconds : Option Nat
deriving DecidableEq

/-- Request built in `Observer.reload` (observer.go lines 109-110):
`NewRequestWithContext` with `context.Background()` — a context carrying no
deadline — method POST, URL the configured endpoint, empty body. -/
def observerReloadRequest (endpoint : String) : ReloadRequest :=
  { method := "POST", url := endpoint, timeoutSeconds := none }

/-- Request built in the superseded `App.run` (old app.go lines 37-38):
`context.WithTimeout` of 10 seconds, method POST, URL
`grafanaURL + "/api/admin/provisioning/dashboards/reload"`. -/
def appRunReloadRequest (grafanaURL : String) : ReloadRequest :=
  { method := "POST"
    url := grafanaURL ++ "/api/admin/provisioning/dashboards/reload"
    timeoutSeconds := some 10 }

/-! ## Response validation (`checkResponse`, identical in both revisions) -/

/-- An HTTP response as `checkResponse` observes it: the status code, the
outcome of `io.ReadAll` on the body, and the outcome of `Body.Close`. -/
structure HttpResponse where
  statusCode : Nat
  readResult : Except String String
  closeResult : Except String Unit

/-- What a run of `checkResponse` produces: the returned error (if any) and
whether `res.Body.Close()` was invoked on that path. -/
structure CheckOutcome where
  err : Option String
  bodyClosed : Bool
deriving DecidableEq

/-- `checkResponse` (observer.go lines 128-144): read the whole body; on a
read error return at once (no close); then close the body, returning any close
error; then a non-200 status is an error carrying status and body; otherwise
success. -/
def checkResponse (res : HttpResponse) : CheckOutcome :=
  match res.readResult with
  | .error e => { err := some ("failed to read response body: " ++ e), bodyClosed := false }
  | .ok resBody =>
    match res.closeResult with
    | .error e => { err := some ("failed to close response body: " ++ e), bodyClosed := true }
    | .ok _ =>
      if res.statusCode ≠ 200 then
        { err := some ("unexpected status code: " ++ toString res.statusCode ++ ", body: " ++ resBody)
          bodyClosed := true }
      else
        { err := none, bodyClosed := true }

/-! ## Run-loop exit handling (observer.go `Observer.Run`) -/

/-- The three ways the `for`/`select` loop in `Observer.Run` terminates. -/
inductive ExitCause where
  | ctxDone
  | eventsClosed
  | errorsClosed
deriving DecidableEq

/-- Cleanup performed on an exit of `Observer.Run`. -/
structure ExitActions where
  watcherClosed : Bool
  reloadChClosed : Bool
deriving DecidableEq

/-- Exit behaviour of `Observer.Run` (observer.go lines 59-88): the
`ctx.Done()` branch closes the watcher and closes `reloadCh` before
returning; the branches taken when the events channel or the errors channel
is closed return immediately with no cleanup. -/
def runExit : ExitCause → ExitActions
  | .ctxDone => { watcherClosed := true, reloadChClosed := true }
  | .eventsClosed => { watcherClosed := false, reloadChClosed := false }
  | .errorsClosed => { watcherClosed := false, reloadChClosed := false }

/-! ## Shutdown (`App.Dispose`, both revisions) -/

/-- Whether the superseded `App.run` goroutine ever performs a send on
`disposeCh`. From the source (old app.go `run`): its select waits only on
`watcher.Events` and `watcher.Errors`, and its deferred cleanup only calls
`close` on `disposeCh` — it contains no send on that channel. -/
def runSendsOnDisposeCh : Bool := false

/-- Result of a `Dispose` invocation as the caller sees it. -/
inductive DisposeOutcome where
  | returns
  | blocksForever
deriving DecidableEq

/-- The superseded `App.Dispose` (old app.go lines 131-148): its first
statement is a bare receive from `disposeCh`. If the run goroutine has exited,
its deferred `close` makes the receive yield `ok = false` and `Dispose`
returns at once (also on a repeated invocation). If the loop is alive,
`disposeCh` is open and unbuffered, so the receive completes only when some
other goroutine sends on it; `runSendsOnDisposeCh` records that none does, so
the receive — which precedes the 5-second timed wait — never completes. -/
def disposeOld (loopExited : Bool) : DisposeOutcome :=
  if loopExited then .returns
  else if runSendsOnDisposeCh then .returns else .blocksForever

/-- The current `App.Dispose` (app.go lines 216-218): calls `a.cancel()` and
returns immediately, in every state of the loop. -/
def disposeNew (_loopExited : Bool) : DisposeOutcome := .returns

/-! ## Grafana base URL (`NewApp`, both revisions) -/

/-- `strings.TrimSuffix` from the Go standard library: remove one occurrence
of `suffix` from the end of `s` when present, otherwise return `s` unchanged. -/
def trimSuffix (s suffix : String) : String :=
  if suffix.data.isSuffixOf s.data then s.dropRight suffix.length else s

/-- Default Grafana base URL assigned before the conditional override. -/
def defaultGrafanaURL : String := "http://localhost:3000"

/-- Base-URL computation in the current `NewApp` (app.go lines 183-187):
start from the default, and when `config.GrafanaURL` is non-empty replace it
with the configured URL, one trailing slash trimmed. -/
def grafanaURLNew (configURL : String) : String :=
  if configURL ≠ "" then trimSuffix configURL "/" else defaultGrafanaURL

/-- Base-URL computation in the superseded `NewApp` (old app.go lines
103-107): start from the default, and when `config.GrafanaURL` is EMPTY
replace it with `TrimSuffix(config.GrafanaURL, "/")` — the condition is
inverted relative to the current revision. -/
def grafanaURLOld (configURL : String) : String :=
  if configURL = "" then trimSuffix configURL "/" else defaultGrafanaURL

/-! ## Multi-observer supervisor (current `NewApp`, app.go lines 189-209) -/

/-- Plugin settings fields consumed by the supervisor loop. -/
structure Config where
  grafanaURL : String
  accesscontrolFileWatcher : List String
  alertingFileWatcher : List String
  dashboardsFileWatcher : List String
  datasourcesFileWatcher : List String
  pluginsFileWatcher : List String
deriving DecidableEq

/-- The scope-name-to-path-list map literal in `NewApp` (app.go lines
194-200), as the list of its entries. Go iterates maps in unspecified order;
no claim here depends on the order. -/
def watcherScopes (c : Config) : List (String × List String) :=
  [("dashboards", c.dashboardsFileWatcher),
   ("datasources", c.datasourcesFileWatcher),
   ("plugins", c.pluginsFileWatcher),
   ("access-control", c.accesscontrolFileWatcher),
   ("alerting", c.alertingFileWatcher)]

/-- The endpoint format string of app.go line 202:
`fmt.Sprintf` of base, `/api/admin/provisioning/`, scope name, `/reload`. -/
def observerEndpoint (base scopeName : String) : String :=
  base ++ "/api/admin/provisioning/" ++ scopeName ++ "/reload"

/-- The arguments `NewApp` passes to `observer.New` for one scope. -/
structure ObserverArgs where
  name : String
  endpoint : String
  paths : List String
deriving DecidableEq

/-- The supervisor loop of `NewApp` (app.go lines 194-209): for each map
entry whose path list is non-empty, construct one Observer with the literal
name string "accesscontrol", the formatted endpoint for that entry's scope
name, and that entry's paths. -/
def supervisorObservers (base : String) (c : Config) : List ObserverArgs :=
  (watcherScopes c).filterMap fun p =>
    if 0 < p.2.length then
      some { name := "accesscontrol", endpoint := observerEndpoint base p.1, paths := p.2 }
    else
      none

/-! ## Observer construction (`New`, observer.go lines 28-52) -/

/-- Outcome of `watcher.Add(path)` for one path, as the code distinguishes
them: success, an error satisfying `errors.Is(err, os.ErrNotExist)`, or any
other error (carrying its message). -/
inductive PathAdd where
  | added
  | notExist
  | otherErr (msg : String)
deriving DecidableEq

/-- Whether a registration outcome aborts construction: only an error other
than non-existence does. -/
def PathAdd.isFatal : PathAdd → Bool
  | .otherErr _ => true
  | _ => false

/-- Watcher state accumulated by the registration loop: the successfully
registered paths, and the paths for which a warning was logged. -/
structure WatcherState where
  watched : List String
  warnings : List String
deriving DecidableEq

/-- The registration loop of `New` (observer.go lines 33-42): for each path
in order, `watcher.Add`; on success the path is watched; on an
`os.ErrNotExist` error a warning is logged and the path skipped; on any other
error construction aborts with a wrapped fatal error. -/
def addAll (st : WatcherState) : List (String × PathAdd) → Except String WatcherState
  | [] => .ok st
  | (path, r) :: rest =>
    match r with
    | .added => addAll { st with watched := st.watched ++ [path] } rest
    | .notExist => addAll { st with warnings := st.warnings ++ [path] } rest
    | .otherErr msg => .error ("failed to add path " ++ path ++ " to watcher: " ++ msg)

/-- `New` (observer.go lines 28-52): creating the fsnotify watcher can itself
fail, which aborts construction; otherwise the paths are registered by the
loop above and the Observer is returned with the resulting watcher. The input
pairs each path with the outcome the filesystem gives its registration. -/
def observerNew (watcherCreated : Bool) (paths : List (String × PathAdd)) :
    Except String WatcherState :=
  if watcherCreated then addAll { watched := [], warnings := [] } paths
  else .error "failed to create watcher"

/-! ## Helper lemmas -/

/-- The drain loop always leaves the queue empty. -/
theorem drainChan_eq_nil (l : List Unit) : drainChan l = [] := by
  induction l with
  | nil => rfl
  | cons a rest ih => simpa [drainChan] using ih

/-! ## C1 -/

/-- C1 counterexample: with the queue at its capacity of 50 signals, the send
in `Observer.Run` blocks the watcher goroutine; it is not a non-blocking
no-op that drops the signal and leaves the queue unchanged. -/
theorem c1_drop_on_full_counterexample :
    chanSend (List.replicate queueCapacity ()) = SendResult.blocked ∧
    chanSend (List.replicate queueCapacity ()) ≠
      SendResult.sent (List.replicate queueCapacity ()) := by
  decide

/-- C1 (amended): pushing a ChangeSignal appends one signal when the queue
holds fewer than its capacity of 50, and blocks the watcher side when the
queue is at capacity — the signal is not silently dropped. -/
theorem c1_push_full_blocks (q : List Unit) :
    (q.length < queueCapacity → chanSend q = SendResult.sent (q ++ [()])) ∧
    (queueCapacity ≤ q.length → chanSend q = SendResult.blocked) := by
  refine ⟨fun h => ?_, fun h => ?_⟩
  · simp [chanSend, h]
  · simp [chanSend, Nat.not_lt.mpr h]

/-- C1 witness: the amended behaviour at the empty queue and at a full queue. -/
theorem c1_push_full_blocks_witness :
    chanSend [] = SendResult.sent [()] ∧
    chanSend (List.replicate 50 ()) = SendResult.blocked :=
  ⟨(c1_push_full_blocks []).1 (by decide),
   (c1_push_full_blocks (List.replicate 50 ())).2 (by decide)⟩

/-! ## C2 -/

/-- C2: when at least one ChangeSignal is pending at a dispatch tick, the
dispatch pass pops one signal, drains and discards the rest, issues exactly
one (hence at most one) reload call, and leaves the queue empty. -/
theorem c2_dispatch_coalesces (q : List Unit) (h : 1 ≤ q.length) :
    dispatchPass q = (1, []) := by
  cases q with
  | nil => simp at h
  | cons a rest => simp [dispatchPass, drainChan_eq_nil]

/-- C2 witness: a burst of three pending signals collapses into one reload
call and an empty queue. -/
theorem c2_dispatch_coalesces_witness : dispatchPass [(), (), ()] = (1, []) :=
  c2_dispatch_coalesces [(), (), ()] (by decide)

/-! ## C3 -/

/-- C3 counterexample: the reload request built by `Observer.reload` for a
concrete endpoint carries no timeout at all — its context is
`context.Background()` — so it is not constructed with a 10-second bound. -/
theorem c3_timeout_counterexample :
    (observerReloadRequest
        "http://localhost:3000/api/admin/provisioning/dashboards/reload").timeoutSeconds
      = none ∧
    (observerReloadRequest
        "http://localhost:3000/api/admin/provisioning/dashboards/reload").timeoutSeconds
      ≠ some 10 := by
  decide

/-- C3 (amended): reload requests issued by the Observer's dispatch loop are
POSTs to the configured endpoint built with no request-level timeout; only
the superseded `App.run` variant builds its POST with the 10-second context
timeout. -/
theorem c3_reload_request_shape (endpoint grafanaURL : String) :
    observerReloadRequest endpoint
        = { method := "POST", url := endpoint, timeoutSeconds := none } ∧
    appRunReloadRequest grafanaURL
        = { method := "POST"
            url := grafanaURL ++ "/api/admin/provisioning/dashboards/reload"
            timeoutSeconds := some 10 } :=
  ⟨rfl, rfl⟩

/-! ## C4 -/

/-- C4 counterexample: on a response whose body read fails, `checkResponse`
returns without invoking `Body.Close` — the body is not released on that
path. -/
theorem c4_close_counterexample :
    (checkResponse
        { statusCode := 200, readResult := Except.error "unexpected EOF",
          closeResult := Except.ok () }).bodyClosed = false := by
  decide

/-- C4 (amended): `checkResponse` closes the body exactly when reading it
succeeded — on the success and non-200 paths the body is read and closed,
but on a read failure the function returns the read error without closing
the body. -/
theorem c4_body_close_policy (res : HttpResponse) :
    ((∃ b, res.readResult = Except.ok b) → (checkResponse res).bodyClosed = true) ∧
    ((∃ e, res.readResult = Except.error e) → (checkResponse res).bodyClosed = false) := by
  obtain ⟨sc, rr, cr⟩ := res
  cases rr with
  | error e =>
    refine ⟨fun h => ?_, fun _ => rfl⟩
    obtain ⟨b, hb⟩ := h
    exact absurd hb (by simp)
  | ok b =>
    refine ⟨fun _ => ?_, fun h => ?_⟩
    · cases cr with
      | error e2 => rfl
      | ok u => by_cases hsc : sc ≠ 200 <;> simp [checkResponse, hsc]
    · obtain ⟨e, he⟩ := h
      exact absurd he (by simp)

/-- C4 witness: the close policy at a successful read and at a failed read. -/
theorem c4_body_close_policy_witness :
    (checkResponse
        { statusCode := 500, readResult := Except.ok "Internal Server Error",
          closeResult := Except.ok () }).bodyClosed = true ∧
    (checkResponse
        { statusCode := 200, readResult := Except.error "connection reset",
          closeResult := Except.ok () }).bodyClosed = false :=
  ⟨(c4_body_close_policy _).1 ⟨"Internal Server Error", rfl⟩,
   (c4_body_close_policy _).2 ⟨"connection reset", rfl⟩⟩

/-! ## C5 -/

/-- C5 counterexample: when `Observer.Run` exits because the event stream
closed, it closes neither the watcher nor the pending queue — contrary to
the claim that every exit closes both. -/
theorem c5_exit_counterexample :
    runExit ExitCause.eventsClosed
        = { watcherClosed := false, reloadChClosed := false } ∧
    runExit ExitCause.eventsClosed
        ≠ { watcherClosed := true, reloadChClosed := true } := by
  decide

/-- C5 (amended): only the cancellation exit of `Observer.Run` closes the
watcher and closes the queue; the exits taken when the event stream or the
error stream closes return without closing either, so the dispatch loop is
not signalled on those exits. -/
theorem c5_exit_cleanup :
    runExit ExitCause.ctxDone = { watcherClosed := true, reloadChClosed := true } ∧
    runExit ExitCause.eventsClosed = { watcherClosed := false, reloadChClosed := false } ∧
    runExit ExitCause.errorsClosed = { watcherClosed := false, reloadChClosed := false } := by
  decide

/-! ## C6 -/

/-- C6: evaluation of both `Dispose` implementations. The superseded
`App.Dispose` blocks forever when invoked while the run loop is alive — its
initial receive from the open, unbuffered `disposeCh` can never complete
because the run goroutine never sends on that channel — so it does not
return within the 5-second bound; on an already-stopped instance it returns
at once. The current `App.Dispose` (cancel only) always returns. -/
theorem c6_dispose_eval :
    disposeOld false = DisposeOutcome.blocksForever ∧
    disposeOld true = DisposeOutcome.returns ∧
    disposeNew false = DisposeOutcome.returns ∧
    disposeNew true = DisposeOutcome.returns := by
  decide

/-! ## C7 -/

/-- C7: evaluation of both base-URL computations. The superseded `NewApp`
inverts the emptiness test: an empty `GrafanaURL` yields the empty base URL
instead of the default, and a configured URL is ignored in favour of the
default. The current `NewApp` implements the claimed policy: default on
empty, configured URL with a trailing slash trimmed otherwise. -/
theorem c7_base_url_eval :
    grafanaURLOld "" = "" ∧
    grafanaURLOld "http://grafana:3000/" = "http://localhost:3000" ∧
    grafanaURLNew "" = "http://localhost:3000" ∧
    grafanaURLNew "http://grafana:3000/" = "http://grafana:3000" ∧
    grafanaURLNew "http://grafana:3000" = "http://grafana:3000" := by
  decide

/-! ## C8 -/

/-- C8 counterexample: a configuration whose only non-empty path list is the
access-control one produces an Observer whose endpoint scope segment is
`access-control`; that endpoint matches none of the endpoints formed from
the claimed scope-name set, which spells the scope `accesscontrol`. -/
theorem c8_scope_counterexample :
    supervisorObservers "http://localhost:3000"
        { grafanaURL := ""
          accesscontrolFileWatcher := ["/etc/grafana/provisioning/access-control"]
          alertingFileWatcher := []
          dashboardsFileWatcher := []
          datasourcesFileWatcher := []
          pluginsFileWatcher := [] }
      = [{ name := "accesscontrol"
           endpoint := "http://localhost:3000/api/admin/provisioning/access-control/reload"
           paths := ["/etc/grafana/provisioning/access-control"] }] ∧
    "http://localhost:3000/api/admin/provisioning/access-control/reload" ∉
      (["dashboards", "datasources", "plugins", "accesscontrol", "alerting"].map
        (observerEndpoint "http://localhost:3000")) := by
  decide

/-- C8 (amended): for every configured scope with a non-empty path list, the
supervisor constructs its Observer with endpoint
`base ++ "/api/admin/provisioning/" ++ scope ++ "/reload"`, where the scope
name in the URL is drawn from the set consisting of dashboards, datasources,
plugins, access-control (hyphenated) and alerting. -/
theorem c8_scope_endpoints (base : String) (c : Config) (p : String × List String)
    (hp : p ∈ watcherScopes c) (hne : 0 < p.2.length) :
    p.1 ∈ ["dashboards", "datasources", "plugins", "access-control", "alerting"] ∧
    ObserverArgs.mk "accesscontrol" (observerEndpoint base p.1) p.2
      ∈ supervisorObservers base c := by
  constructor
  · simp only [watcherScopes, List.mem_cons, List.not_mem_nil, or_false] at hp
    rcases hp with h | h | h | h | h <;> simp [h]
  · exact List.mem_filterMap.mpr ⟨p, hp, by rw [if_pos hne]⟩

/-- C8 witness: the dashboards scope with one configured path yields an
Observer on the dashboards reload endpoint. -/
theorem c8_scope_endpoints_witness :
    "dashboards" ∈ ["dashboards", "datasources", "plugins", "access-control", "alerting"] ∧
    ObserverArgs.mk "accesscontrol"
        (observerEndpoint "http://localhost:3000" "dashboards")
        ["/var/lib/grafana/dashboards"]
      ∈ supervisorObservers "http://localhost:3000"
          { grafanaURL := ""
            accesscontrolFileWatcher := []
            alertingFileWatcher := []
            dashboardsFileWatcher := ["/var/lib/grafana/dashboards"]
            datasourcesFileWatcher := []
            pluginsFileWatcher := [] } :=
  c8_scope_endpoints "http://localhost:3000" _ ("dashboards", ["/var/lib/grafana/dashboards"])
    (by decide) (by decide)

/-! ## C9 -/

/-- When no registration outcome is fatal, the loop registers every
successfully-added path and warns once per non-existent path, in order. -/
theorem addAll_clean (l : List (String × PathAdd)) :
    ∀ st : WatcherState, (∀ pr ∈ l, pr.2.isFatal = false) →
      addAll st l = Except.ok
        { watched := st.watched ++
            l.filterMap fun pr => if pr.2 = PathAdd.added then some pr.1 else none
          warnings := st.warnings ++
            l.filterMap fun pr => if pr.2 = PathAdd.notExist then some pr.1 else none } := by
  induction l with
  | nil => intro st _; simp [addAll]
  | cons pr rest ih =>
    intro st h
    obtain ⟨path, r⟩ := pr
    have hrest : ∀ pr ∈ rest, pr.2.isFatal = false :=
      fun pr hpr => h pr (List.mem_cons_of_mem _ hpr)
    cases r with
    | added =>
      rw [addAll, ih _ hrest]
      simp [List.filterMap_cons]
    | notExist =>
      rw [addAll, ih _ hrest]
      simp [List.filterMap_cons]
    | otherErr m =>
      exact absurd (h (path, .otherErr m) (List.mem_cons_self _ _)) (by simp [PathAdd.isFatal])

/-- When some registration outcome is fatal, the loop aborts with an error. -/
theorem addAll_fatal (l : List (String × PathAdd)) :
    ∀ st : WatcherState, (∃ pr ∈ l, pr.2.isFatal = true) →
      ∃ e, addAll st l = Except.error e := by
  induction l with
  | nil => intro st h; simp at h
  | cons pr rest ih =>
    intro st h
    obtain ⟨path, r⟩ := pr
    cases r with
    | otherErr m => exact ⟨_, rfl⟩
    | added =>
      refine ih _ ?_
      rcases h with ⟨pr, hpr, hfatal⟩
      rcases List.mem_cons.mp hpr with h1 | h2
      · rw [h1] at hfatal; simp [PathAdd.isFatal] at hfatal
      · exact ⟨pr, h2, hfatal⟩
    | notExist =>
      refine ih _ ?_
      rcases h with ⟨pr, hpr, hfatal⟩
      rcases List.mem_cons.mp hpr with h1 | h2
      · rw [h1] at hfatal; simp [PathAdd.isFatal] at hfatal
      · exact ⟨pr, h2, hfatal⟩

/-- C9: `New` returns an error iff the watcher itself cannot be created or
some path registration fails for a reason other than non-existence; when
every outcome is non-fatal, construction succeeds, watching exactly the
successfully-added paths and logging exactly one warning per non-existent
path. -/
theorem c9_registration_policy (paths : List (String × PathAdd)) :
    ((∀ pr ∈ paths, pr.2.isFatal = false) →
      observerNew true paths = Except.ok
        { watched := paths.filterMap fun pr => if pr.2 = PathAdd.added then some pr.1 else none
          warnings :=
            paths.filterMap fun pr => if pr.2 = PathAdd.notExist then some pr.1 else none }) ∧
    ((∃ pr ∈ paths, pr.2.isFatal = true) → ∃ e, observerNew true paths = Except.error e) ∧
    (∃ e, observerNew false paths = Except.error e) := by
  refine ⟨fun h => ?_, fun h => ?_, ⟨_, rfl⟩⟩
  · rw [observerNew, if_pos rfl, addAll_clean paths _ h]
    simp
  · rw [observerNew, if_pos rfl]
    exact addAll_fatal paths _ h

/-- C9 witness: the spec scenario — two existing paths and one non-existent
path — succeeds, watches the two existing paths, and records exactly one
warning for the missing one. -/
theorem c9_registration_policy_witness :
    observerNew true
        [("/etc/grafana/a", PathAdd.added), ("/missing", PathAdd.notExist),
         ("/etc/grafana/b", PathAdd.added)]
      = Except.ok { watched := ["/etc/grafana/a", "/etc/grafana/b"], warnings := ["/missing"] } :=
  (c9_registration_policy
    [("/etc/grafana/a", PathAdd.added), ("/missing", PathAdd.notExist),
     ("/etc/grafana/b", PathAdd.added)]).1 (by decide)

/-! ## C10 -/

/-- Mapping the endpoint over the supervisor's filterMap agrees with mapping
the endpoint constructor over the non-empty-path scopes. -/
theorem filterMap_endpoint_map (base : String) (l : List (String × List String)) :
    ((l.filterMap fun p =>
        if 0 < p.2.length then
          some (ObserverArgs.mk "accesscontrol" (observerEndpoint base p.1) p.2)
        else none).map ObserverArgs.endpoint)
      = (l.filter fun p => 0 < p.2.length).map fun p => observerEndpoint base p.1 := by
  induction l with
  | nil => rfl
  | cons p rest ih =>
    by_cases h : 0 < p.2.length <;>
      simp [List.filterMap_cons, List.filter_cons, h, ih]

/-- C10: every Observer the supervisor constructs carries the constant name
string "accesscontrol" for log attribution, regardless of which scope it
serves, while its endpoint varies with the scope name of its map entry. -/
theorem c10_constant_name (base : String) (c : Config) :
    (∀ a ∈ supervisorObservers base c, a.name = "accesscontrol") ∧
    ((supervisorObservers base c).map ObserverArgs.endpoint
      = ((watcherScopes c).filter fun p => 0 < p.2.length).map
          fun p => observerEndpoint base p.1) := by
  constructor
  · intro a ha
    rcases List.mem_filterMap.mp ha with ⟨p, hp, hfp⟩
    by_cases h : 0 < p.2.length
    · rw [if_pos h] at hfp
      injection hfp with h2
      subst h2
      rfl
    · rw [if_neg h] at hfp
      cases hfp
  · exact filterMap_endpoint_map base (watcherScopes c)

/-- C10 witness: a configuration with only the alerting scope populated
yields one Observer; its name is the constant "accesscontrol" while its
endpoint is the alerting reload URL. -/
theorem c10_constant_name_witness :
    ({ name := "accesscontrol"
       endpoint := "http://grafana:3000/api/admin/provisioning/alerting/reload"
       paths := ["/etc/grafana/provisioning/alerting"] } : ObserverArgs).name
      = "accesscontrol" :=
  (c10_constant_name "http://grafana:3000"
      { grafanaURL := ""
        accesscontrolFileWatcher := []
        alertingFileWatcher := ["/etc/grafana/provisioning/alerting"]
        dashboardsFileWatcher := []
        datasourcesFileWatcher := []
        pluginsFileWatcher := [] }).1 _ (by decide)

end ProvisionerReloader
